import Mathlib

/-!
Verification of `packages/sshnpdpy/lib/sshrv.py` (class `SSHRV`) against its
natural-language specification.

The Python class holds five attributes set in `__init__` and a `run` method
whose body is a `try` block that (1) resolves the local host's address via
`socket.gethostbyname(socket.gethostname())` and stores it into `self.host`,
(2) constructs a `SocketConnector` with four positional arguments, (3) calls
`connect()` on it, and (4) returns `True`; the `except Exception` handler logs
`"SSHRV Error: "` with the exception and falls off the end of the function,
which in Python returns `None`.

The external world (OS resolver, `SocketConnector.__init__`, `connect`) is
modelled as an environment `Env` of fallible operations; `run` is embedded as
a pure function from the environment and the object state to the updated
state, the Python return value, and a trace of the observable events the body
performs, in order.
-/

namespace NoPorts

/-- Python runtime values that can flow out of `run` or out of `connect`:
`None`, booleans, integers and strings. -/
inductive PyVal where
  | none
  | bool (b : Bool)
  | int (n : Int)
  | str (s : String)
deriving DecidableEq, Repr

/-- A Python exception, identified by its message. -/
abbrev PyExn := String

/-- The `SocketConnector` object as seen from `sshrv.py`: it is constructed
with four positional arguments (local host, local port, destination, remote
streaming port) and then `connect()` is called on it. Its internals live in
`socket_connector.py` and are opaque to `SSHRV.run`. -/
structure SocketConnector where
  srv_host : String
  srv_port : Nat
  dest_host : String
  dest_port : Nat
deriving DecidableEq, Repr

/-- Observable events performed by the body of `SSHRV.run`, in order:
the address-resolution call, the construction of the `SocketConnector` with
its four positional arguments, the `connect()` invocation, and the
`logging.error` call of the `except` handler. -/
inductive Event where
  | resolve
  | mkConn (localHost : String) (localPort : Nat) (dest : String) (remotePort : Nat)
  | connectCall (c : SocketConnector)
  | logErr (msg : String) (e : PyExn)
deriving DecidableEq, Repr

/-- Whether an event is the address-resolution call. -/
def Event.isResolve : Event → Bool
  | .resolve => true
  | _ => false

/-- Whether an event is a `SocketConnector` construction. -/
def Event.isMkConn : Event → Bool
  | .mkConn _ _ _ _ => true
  | _ => false

/-- Whether an event is a `connect()` invocation. -/
def Event.isConnectCall : Event → Bool
  | .connectCall _ => true
  | _ => false

/-- The external world as seen by `SSHRV.run`: each collaborator either
returns a value or raises a Python exception.
`resolveLocal` is `socket.gethostbyname(socket.gethostname())`;
`mkConnector` is `SocketConnector(host, local_ssh_port, destination,
streaming_port)`; `connect` is the `connect()` method, returning an arbitrary
Python value. -/
structure Env where
  resolveLocal : Except PyExn String
  mkConnector : String → Nat → String → Nat → Except PyExn SocketConnector
  connect : SocketConnector → Except PyExn PyVal

/-- The attributes of an `SSHRV` object, exactly those assigned in
`SSHRV.__init__`: the logger (identified by its name), `host`,
`destination`, `local_ssh_port` and `streaming_port`. -/
structure SSHRV where
  logger : String
  host : String
  destination : String
  local_ssh_port : Nat
  streaming_port : Nat
deriving DecidableEq, Repr

/-- `SSHRV.__init__(self, destination, port, local_port)`: sets
`self.logger = logging.getLogger("sshrv")`, `self.host = ""`,
`self.destination = destination`, `self.local_ssh_port = 22`,
`self.streaming_port = port`. The `local_port` parameter is never read. -/
def SSHRV.init (destination : String) (port : Nat) (local_port : Nat) : SSHRV :=
  { logger := "sshrv"
    host := ""
    destination := destination
    local_ssh_port := 22
    streaming_port := port }

/-- The `try` block of `SSHRV.run`: assign `self.host` from the resolver,
construct the `SocketConnector`, call `connect()`, return `True`. The result
is the object state when the block exits (normally or by exception), the
block's outcome (`ok` return value or raised exception), and the trace of
events performed before exiting. -/
def SSHRV.tryBody (env : Env) (self : SSHRV) :
    SSHRV × Except PyExn PyVal × List Event :=
  match env.resolveLocal with
  | .error e => (self, .error e, [.resolve])
  | .ok h =>
    let s : SSHRV := { self with host := h }
    match env.mkConnector s.host s.local_ssh_port s.destination s.streaming_port with
    | .error e =>
        (s, .error e,
          [.resolve, .mkConn s.host s.local_ssh_port s.destination s.streaming_port])
    | .ok c =>
      match env.connect c with
      | .error e =>
          (s, .error e,
            [.resolve, .mkConn s.host s.local_ssh_port s.destination s.streaming_port,
             .connectCall c])
      | .ok _ =>
          (s, .ok (PyVal.bool true),
            [.resolve, .mkConn s.host s.local_ssh_port s.destination s.streaming_port,
             .connectCall c])

/-- `SSHRV.run`: the `try` body, wrapped in `except Exception as e:
logging.error("SSHRV Error: ", e)`. On a raised exception the handler logs
and the function falls off its end, returning `None`. -/
def SSHRV.run (env : Env) (self : SSHRV) : SSHRV × PyVal × List Event :=
  match SSHRV.tryBody env self with
  | (s, .ok v, tr) => (s, v, tr)
  | (s, .error e, tr) => (s, PyVal.none, tr ++ [.logErr "SSHRV Error: " e])

/-- Modelled from the spec: the byte-copy operation of the Relay Connector
(`socket_connector.py`, which is not present under `src/`). Per the spec,
"Each operation reads from one socket and writes the exact bytes read to the
other socket, in order, with no transformation, until end-of-stream". The
argument is the sequence of chunks that successive reads from the source
socket return; the result is the byte sequence delivered to the destination
socket. -/
def relayCopy : List (List Nat) → List Nat
  | [] => []
  | chunk :: rest => chunk ++ relayCopy rest

/-! Concrete environments used by the witness theorems. -/

/-- An environment in which every external call succeeds: resolution yields
`10.0.0.5`, construction records its arguments, `connect` returns `None`. -/
def envOk : Env :=
  { resolveLocal := .ok "10.0.0.5"
    mkConnector := fun a b c d => .ok ⟨a, b, c, d⟩
    connect := fun _ => .ok PyVal.none }

/-- An environment in which address resolution raises. -/
def envResolveFail : Env :=
  { resolveLocal := .error "gaierror"
    mkConnector := fun a b c d => .ok ⟨a, b, c, d⟩
    connect := fun _ => .ok PyVal.none }

/-- An environment in which `connect()` raises. -/
def envConnectFail : Env :=
  { resolveLocal := .ok "10.0.0.5"
    mkConnector := fun a b c d => .ok ⟨a, b, c, d⟩
    connect := fun _ => .error "ConnectionRefusedError" }

/-- An environment in which `connect()` returns `False` without raising. -/
def envConnectFalse : Env :=
  { resolveLocal := .ok "10.0.0.5"
    mkConnector := fun a b c d => .ok ⟨a, b, c, d⟩
    connect := fun _ => .ok (PyVal.bool false) }

/-- A sample session object, constructed with `local_port = 1234`. -/
def sess0 : SSHRV := SSHRV.init "dest@host" 9000 1234

/-! The claims. -/

/-- C1: for every choice of constructor arguments, the constructed session's
`local_ssh_port` equals 22, and the `local_port` argument has no effect on
any attribute: two constructions differing only in `local_port` yield equal
objects. -/
theorem sshrv_init_ignores_local_port
    (destination : String) (port : Nat) (lp lp₂ : Nat) :
    (SSHRV.init destination port lp).local_ssh_port = 22 ∧
    SSHRV.init destination port lp = SSHRV.init destination port lp₂ := by
  exact ⟨rfl, rfl⟩

/-- C2: whenever the body of `run` raises (during resolution, connector
construction or connect), `run` returns normally: its Python return value is
`None`, and the trace is the body's trace followed by exactly the
`logging.error` call that records the exception — nothing is re-raised. -/
theorem sshrv_run_swallows_exceptions (env : Env) (self : SSHRV) (e : PyExn)
    (h : (SSHRV.tryBody env self).2.1 = Except.error e) :
    (SSHRV.run env self).2.1 = PyVal.none ∧
    (SSHRV.run env self).2.2 =
      (SSHRV.tryBody env self).2.2 ++ [Event.logErr "SSHRV Error: " e] := by
  unfold SSHRV.run
  rcases hb : SSHRV.tryBody env self with ⟨s, r, tr⟩
  rw [hb] at h
  simp only at h
  subst h
  simp

/-- C2 witness: with a failing resolver, `run` returns `None` and appends the
log event. -/
theorem sshrv_run_swallows_exceptions_witness :
    (SSHRV.tryBody envResolveFail sess0).2.1 = Except.error "gaierror" ∧
    ((SSHRV.run envResolveFail sess0).2.1 = PyVal.none ∧
     (SSHRV.run envResolveFail sess0).2.2 =
       (SSHRV.tryBody envResolveFail sess0).2.2 ++
         [Event.logErr "SSHRV Error: " "gaierror"]) :=
  ⟨rfl, sshrv_run_swallows_exceptions envResolveFail sess0 "gaierror" rfl⟩

/-- C3: `run` returns `True` exactly when resolution, construction and
connect all complete without raising, and any other return value is `None`
(no distinguished failure value reaches the caller). -/
theorem sshrv_run_success_indicator (env : Env) (self : SSHRV) :
    ((SSHRV.run env self).2.1 = PyVal.bool true ↔
      ∃ h c v, env.resolveLocal = Except.ok h ∧
        env.mkConnector h self.local_ssh_port self.destination
          self.streaming_port = Except.ok c ∧
        env.connect c = Except.ok v) ∧
    ((SSHRV.run env self).2.1 ≠ PyVal.bool true →
      (SSHRV.run env self).2.1 = PyVal.none) := by
  rcases hr : env.resolveLocal with e | h
  · constructor
    · constructor
      · intro hfalse
        simp [SSHRV.run, SSHRV.tryBody, hr] at hfalse
      · rintro ⟨h₂, c₂, v₂, hh, hc, hv⟩
        exact absurd hh (by simp)
    · intro _
      simp [SSHRV.run, SSHRV.tryBody, hr]
  · rcases hm : env.mkConnector h self.local_ssh_port self.destination
        self.streaming_port with e | c
    · constructor
      · constructor
        · intro hfalse
          simp [SSHRV.run, SSHRV.tryBody, hr, hm] at hfalse
        · rintro ⟨h₂, c₂, v₂, hh, hc, hv⟩
          injection hh with hh
          subst hh
          rw [hm] at hc
          exact absurd hc (by simp)
      · intro _
        simp [SSHRV.run, SSHRV.tryBody, hr, hm]
    · rcases hc : env.connect c with e | v
      · constructor
        · constructor
          · intro hfalse
            simp [SSHRV.run, SSHRV.tryBody, hr, hm, hc] at hfalse
          · rintro ⟨h₂, c₂, v₂, hh, hcon, hv⟩
            injection hh with hh
            subst hh
            rw [hm] at hcon
            injection hcon with hcon
            subst hcon
            rw [hc] at hv
            exact absurd hv (by simp)
        · intro _
          simp [SSHRV.run, SSHRV.tryBody, hr, hm, hc]
      · constructor
        · constructor
          · intro _
            exact ⟨h, c, v, rfl, hm, hc⟩
          · intro _
            simp [SSHRV.run, SSHRV.tryBody, hr, hm, hc]
        · intro hne
          exact absurd (by simp [SSHRV.run, SSHRV.tryBody, hr, hm, hc]) hne

/-- C4: `run` performs at most one `connect()` invocation: the trace of every
invocation contains at most one connect event (no retry loop). -/
theorem sshrv_run_single_connect_attempt (env : Env) (self : SSHRV) :
    ((SSHRV.run env self).2.2.countP (fun ev => Event.isConnectCall ev)) ≤ 1 := by
  rcases hr : env.resolveLocal with e | h
  · simp [SSHRV.run, SSHRV.tryBody, hr, List.countP_cons, Event.isConnectCall]
  · rcases hm : env.mkConnector h self.local_ssh_port self.destination
        self.streaming_port with e | c
    · simp [SSHRV.run, SSHRV.tryBody, hr, hm, List.countP_cons, Event.isConnectCall]
    · rcases hc : env.connect c with e | v
      · simp [SSHRV.run, SSHRV.tryBody, hr, hm, hc, List.countP_cons,
          Event.isConnectCall]
      · simp [SSHRV.run, SSHRV.tryBody, hr, hm, hc, List.countP_cons,
          Event.isConnectCall]

/-- C5: every invocation of `run` performs the resolution call exactly once;
and when each step returns without raising, the trace is exactly: the
resolution, then one `SocketConnector` construction whose four arguments are,
in order, the freshly resolved host, the local SSH port, the destination and
the streaming port, then one `connect()` invocation. -/
theorem sshrv_run_control_flow (env : Env) (self : SSHRV) :
    ((SSHRV.run env self).2.2.countP (fun ev => Event.isResolve ev) = 1) ∧
    (∀ h c v, env.resolveLocal = Except.ok h →
      env.mkConnector h self.local_ssh_port self.destination
        self.streaming_port = Except.ok c →
      env.connect c = Except.ok v →
      (SSHRV.run env self).2.2 =
        [Event.resolve,
         Event.mkConn h self.local_ssh_port self.destination self.streaming_port,
         Event.connectCall c]) := by
  constructor
  · rcases hr : env.resolveLocal with e | h
    · simp [SSHRV.run, SSHRV.tryBody, hr, List.countP_cons, Event.isResolve]
    · rcases hm : env.mkConnector h self.local_ssh_port self.destination
          self.streaming_port with e | c
      · simp [SSHRV.run, SSHRV.tryBody, hr, hm, List.countP_cons, Event.isResolve]
      · rcases hc : env.connect c with e | v
        · simp [SSHRV.run, SSHRV.tryBody, hr, hm, hc, List.countP_cons,
            Event.isResolve]
        · simp [SSHRV.run, SSHRV.tryBody, hr, hm, hc, List.countP_cons,
            Event.isResolve]
  · intro h c v hr hm hc
    simp [SSHRV.run, SSHRV.tryBody, hr, hm, hc]

/-- C5 witness: in the all-successful environment, the trace of `run` on the
sample session is exactly resolution, construction with the four arguments in
order, and one connect call. -/
theorem sshrv_run_control_flow_witness :
    (SSHRV.run envOk sess0).2.2 =
      [Event.resolve,
       Event.mkConn "10.0.0.5" 22 "dest@host" 9000,
       Event.connectCall ⟨"10.0.0.5", 22, "dest@host", 9000⟩] :=
  (sshrv_run_control_flow envOk sess0).2 "10.0.0.5"
    ⟨"10.0.0.5", 22, "dest@host", 9000⟩ PyVal.none rfl rfl rfl

/-- C6: if address resolution raises, `run` constructs no connector and
invokes no `connect()`: the trace is exactly the resolution call followed by
the error log, with zero construction events and zero connect events. -/
theorem sshrv_resolve_failure_no_connect (env : Env) (self : SSHRV) (e : PyExn)
    (h : env.resolveLocal = Except.error e) :
    (SSHRV.run env self).2.2 = [Event.resolve, Event.logErr "SSHRV Error: " e] ∧
    (SSHRV.run env self).2.2.countP (fun ev => Event.isMkConn ev) = 0 ∧
    (SSHRV.run env self).2.2.countP (fun ev => Event.isConnectCall ev) = 0 := by
  refine ⟨by simp [SSHRV.run, SSHRV.tryBody, h], ?_, ?_⟩
  · simp [SSHRV.run, SSHRV.tryBody, h, List.countP_cons, Event.isMkConn]
  · simp [SSHRV.run, SSHRV.tryBody, h, List.countP_cons, Event.isConnectCall]

/-- C6 witness: with the failing resolver, the trace on the sample session is
the resolution followed by the log entry, and contains no construction and no
connect event. -/
theorem sshrv_resolve_failure_no_connect_witness :
    envResolveFail.resolveLocal = Except.error "gaierror" ∧
    ((SSHRV.run envResolveFail sess0).2.2 =
        [Event.resolve, Event.logErr "SSHRV Error: " "gaierror"] ∧
     (SSHRV.run envResolveFail sess0).2.2.countP
        (fun ev => Event.isMkConn ev) = 0 ∧
     (SSHRV.run envResolveFail sess0).2.2.countP
        (fun ev => Event.isConnectCall ev) = 0) :=
  ⟨rfl, sshrv_resolve_failure_no_connect envResolveFail sess0 "gaierror" rfl⟩

/-- C7: byte transparency of each relay direction, modelled from the spec
(`socket_connector.py` is not under `src/`): for every byte sequence `B` sent
into one leg, chunked arbitrarily by the successive reads, the other leg
receives exactly `B`, in order, with no transformation; the two directions
are independent instances of the same copy operation. -/
theorem relay_transparency (B : List Nat) (chunks : List (List Nat))
    (h : chunks.flatten = B) : relayCopy chunks = B := by
  induction chunks generalizing B with
  | nil => simpa [relayCopy] using h.symm
  | cons chunk rest ih =>
    rw [List.flatten_cons] at h
    subst h
    rw [relayCopy, ih rest.flatten rfl]

/-- C7 witness: the bytes of "PING" read in two chunks are delivered intact
and in order. -/
theorem relay_transparency_witness :
    ([[80, 73], [78, 71]] : List (List Nat)).flatten = [80, 73, 78, 71] ∧
    relayCopy [[80, 73], [78, 71]] = [80, 73, 78, 71] :=
  ⟨by decide, relay_transparency [80, 73, 78, 71] [[80, 73], [78, 71]] (by decide)⟩

/-- C8: the Python return value of `run` is always `True` or `None`, never
`False`: on any exception in the body the handler falls off the end of the
function and `None` is returned, so a caller comparing the result against
`False` never observes a failure. -/
theorem sshrv_run_true_or_none (env : Env) (self : SSHRV) :
    ((SSHRV.run env self).2.1 = PyVal.bool true ∨
     (SSHRV.run env self).2.1 = PyVal.none) ∧
    ((SSHRV.run env self).2.1 ≠ PyVal.bool false) ∧
    (∀ e, (SSHRV.tryBody env self).2.1 = Except.error e →
      (SSHRV.run env self).2.1 = PyVal.none) := by
  rcases hr : env.resolveLocal with e | h
  · refine ⟨Or.inr ?_, ?_, ?_⟩ <;>
      simp [SSHRV.run, SSHRV.tryBody, hr]
  · rcases hm : env.mkConnector h self.local_ssh_port self.destination
        self.streaming_port with e | c
    · refine ⟨Or.inr ?_, ?_, ?_⟩ <;>
        simp [SSHRV.run, SSHRV.tryBody, hr, hm]
    · rcases hc : env.connect c with e | v
      · refine ⟨Or.inr ?_, ?_, ?_⟩ <;>
          simp [SSHRV.run, SSHRV.tryBody, hr, hm, hc]
      · refine ⟨Or.inl ?_, ?_, ?_⟩ <;>
          simp [SSHRV.run, SSHRV.tryBody, hr, hm, hc]

/-- C8 witness: with a raising `connect()`, `run` on the sample session
returns `None`, not `False`. -/
theorem sshrv_run_true_or_none_witness :
    (SSHRV.tryBody envConnectFail sess0).2.1 =
      Except.error "ConnectionRefusedError" ∧
    (SSHRV.run envConnectFail sess0).2.1 = PyVal.none :=
  ⟨rfl, (sshrv_run_true_or_none envConnectFail sess0).2.2
    "ConnectionRefusedError" rfl⟩

/-- C9: frame property of `run`: among the attributes set at construction,
only `host` is ever modified; `destination`, `local_ssh_port`,
`streaming_port` and `logger` are unchanged on every path, success or
exception. -/
theorem sshrv_run_frame (env : Env) (self : SSHRV) :
    ((SSHRV.run env self).1.destination = self.destination) ∧
    ((SSHRV.run env self).1.local_ssh_port = self.local_ssh_port) ∧
    ((SSHRV.run env self).1.streaming_port = self.streaming_port) ∧
    ((SSHRV.run env self).1.logger = self.logger) := by
  rcases hr : env.resolveLocal with e | h
  · refine ⟨?_, ?_, ?_, ?_⟩ <;> simp [SSHRV.run, SSHRV.tryBody, hr]
  · rcases hm : env.mkConnector h self.local_ssh_port self.destination
        self.streaming_port with e | c
    · refine ⟨?_, ?_, ?_, ?_⟩ <;> simp [SSHRV.run, SSHRV.tryBody, hr, hm]
    · rcases hc : env.connect c with e | v
      · refine ⟨?_, ?_, ?_, ?_⟩ <;> simp [SSHRV.run, SSHRV.tryBody, hr, hm, hc]
      · refine ⟨?_, ?_, ?_, ?_⟩ <;> simp [SSHRV.run, SSHRV.tryBody, hr, hm, hc]

/-- C10: `run` discards the value `connect()` returns: whenever resolution,
construction and connect all return without raising, `run` returns `True`,
whatever value — including `False` — `connect()` returned. -/
theorem sshrv_run_discards_connect_result (env : Env) (self : SSHRV)
    (h : String) (c : SocketConnector) (v : PyVal)
    (hr : env.resolveLocal = Except.ok h)
    (hm : env.mkConnector h self.local_ssh_port self.destination
      self.streaming_port = Except.ok c)
    (hc : env.connect c = Except.ok v) :
    (SSHRV.run env self).2.1 = PyVal.bool true := by
  simp [SSHRV.run, SSHRV.tryBody, hr, hm, hc]

/-- C10 witness: with `connect()` returning `False`, `run` on the sample
session still returns `True`. -/
theorem sshrv_run_discards_connect_result_witness :
    envConnectFalse.connect ⟨"10.0.0.5", 22, "dest@host", 9000⟩ =
      Except.ok (PyVal.bool false) ∧
    (SSHRV.run envConnectFalse sess0).2.1 = PyVal.bool true :=
  ⟨rfl, sshrv_run_discards_connect_result envConnectFalse sess0 "10.0.0.5"
    ⟨"10.0.0.5", 22, "dest@host", 9000⟩ (PyVal.bool false) rfl rfl rfl⟩

end NoPorts
